import Mathlib

/-!
Shallow embedding of the signal-fusion, P&L-simulation and
portfolio-performance routines of the repository
(`advanced_tensor_mathematical_proof.py`, `mathematical_proof_validation.py`,
`mathematical_proof_simple.py`).

Modelling conventions:
* Python floats are modelled by exact rationals `ℚ`; the square root used by
  `math.sqrt` / `np.std` is modelled over `ℝ` with `Real.sqrt`.
* Python exceptions (`ValueError`, `ZeroDivisionError`) are modelled by
  `Except`: an exception aborts the computation, so a raising call returns
  `Except.error`.
* The unguarded numpy division `weights / np.sum(weights)` at zero sum
  produces non-finite (NaN/inf) weights rather than raising; a NaN-poisoned
  result is modelled as `Option.none`.
-/

/-- A signal dictionary as produced by `AIStrategy.generate_signal`
(`advanced_tensor_mathematical_proof.py`): the three fields read by
`mathematical_tensor_fusion`. -/
structure Signal where
  confidence : ℚ
  direction : ℤ
  magnitude : ℚ
  deriving DecidableEq

/-- The exceptions `mathematical_tensor_fusion` can raise: the explicit
`ValueError("Signals and weights must have same length")` of line 180 (the
spec names this condition `InputShapeError`), and the `ZeroDivisionError`
from evaluating `1/len(weights)` on empty input (line 184). -/
inductive FusionError where
  | InputShapeError : FusionError
  | ZeroDivisionError : FusionError
  deriving DecidableEq

/-- The returned dictionary of `mathematical_tensor_fusion` (lines 203-210).
The raw direction variance (line 196) is kept in the record; `coherence`
(line 197) is `coherence_of` applied to it, split off because it needs
`Real.sqrt`.  The `information_content` diagnostic is used by no claim and
is not modelled. -/
structure FusionResult where
  fused_confidence : ℚ
  fused_direction : ℤ
  fused_magnitude : ℚ
  direction_variance : ℚ
  contributing_signals : ℕ
  deriving DecidableEq

/-- Weight normalization of `mathematical_tensor_fusion` (lines 183-184):
`[w / total_weight for w in weights] if total_weight > 0
 else [1/len(weights)] * len(weights)`.
Faithful for non-empty input only: on the empty list the Python expression
raises `ZeroDivisionError` at `1/len(weights)`, which
`mathematical_tensor_fusion` below models at its call site; theorems about
this function are therefore stated for non-empty lists. -/
def normalizeWeights (weights : List ℚ) : List ℚ :=
  let total_weight := weights.sum
  if 0 < total_weight then weights.map (fun w => w / total_weight)
  else List.replicate weights.length (1 / (weights.length : ℚ))

/-- Line 187: `sum(s['confidence'] * w for s, w in zip(signals, normalized_weights))`. -/
def dotConf (signals : List Signal) (nw : List ℚ) : ℚ :=
  ((signals.zip nw).map (fun p => p.1.confidence * p.2)).sum

/-- Line 188: `sum(s['direction'] * s['confidence'] * w for s, w in zip(signals, normalized_weights))`. -/
def dotDir (signals : List Signal) (nw : List ℚ) : ℚ :=
  ((signals.zip nw).map (fun p => (p.1.direction : ℚ) * p.1.confidence * p.2)).sum

/-- Line 189: `sum(s['magnitude'] * s['confidence'] * w for s, w in zip(signals, normalized_weights))`. -/
def dotMag (signals : List Signal) (nw : List ℚ) : ℚ :=
  ((signals.zip nw).map (fun p => p.1.magnitude * p.1.confidence * p.2)).sum

/-- Population mean `sum(xs)/len(xs)`, as used on line 196. -/
def popMean (xs : List ℚ) : ℚ := xs.sum / (xs.length : ℚ)

/-- Line 196: `sum((d - sum(directions)/len(directions))**2 for d in directions) / len(directions)`. -/
def popVariance (xs : List ℚ) : ℚ :=
  ((xs.map (fun d => (d - popMean xs) ^ 2)).sum) / (xs.length : ℚ)

/-- `mathematical_tensor_fusion` (`advanced_tensor_mathematical_proof.py`,
lines 176-210).  Raises `InputShapeError` when the lengths differ (lines
179-180).  On empty (equal-length) input, Python raises `ZeroDivisionError`
while evaluating `1/len(weights)` on line 184 (the weight sum of the empty
list is `0`, so the fallback branch is taken) — modelled by the second
guard.  Otherwise no division can fail and the fused record is returned;
the direction tie-break of line 192 is `1 if fused_direction > 0 else -1`. -/
def mathematical_tensor_fusion (signals : List Signal) (weights : List ℚ) :
    Except FusionError FusionResult :=
  if signals.length ≠ weights.length then Except.error FusionError.InputShapeError
  else if signals.length = 0 then Except.error FusionError.ZeroDivisionError
  else
    let nw := normalizeWeights weights
    let dirSum := dotDir signals nw
    Except.ok
      { fused_confidence := dotConf signals nw
        fused_direction := if 0 < dirSum then 1 else -1
        fused_magnitude := dotMag signals nw
        direction_variance := popVariance (signals.map (fun s => (s.direction : ℚ)))
        contributing_signals := signals.length }

/-- Line 197: `coherence = max(0, 1 - math.sqrt(direction_variance))`, as a
function of the raw direction variance computed on line 196. -/
noncomputable def coherence_of (v : ℚ) : ℝ := max 0 (1 - Real.sqrt (v : ℝ))

/-- Weight normalization of `tensor_fusion`
(`mathematical_proof_validation.py`, line 78): `weights / np.sum(weights)`,
with no guard.  At zero sum numpy emits non-finite (NaN/inf) entries instead
of weights; that poisoned outcome is modelled as `none`. -/
def tensor_fusion_weights (weights : List ℚ) : Option (List ℚ) :=
  if weights.sum = 0 then none
  else some (weights.map (fun w => w / weights.sum))

/-- `np.sign` on an exact rational. -/
def qsign (x : ℚ) : ℚ := if 0 < x then 1 else if x < 0 then -1 else 0

/-- The per-trade P&L of `compute_performance_metrics`
(`mathematical_proof_validation.py`, lines 102-117): `actual_mag * 60` when
`np.sign(predictions[t, 1])` equals the actual direction, `-actual_mag * 60`
otherwise, minus the `0.25` commission. -/
def trade_pnl (predicted_dir_value actual_dir actual_mag : ℚ) : ℚ :=
  (if qsign predicted_dir_value = actual_dir then actual_mag * 60
   else -actual_mag * 60) - 1/4

/-- The per-trade profit of `prove_additive_value`
(`advanced_tensor_mathematical_proof.py`, lines 369-373):
`fused['fused_magnitude'] * 60 - 0.25` when the fused direction equals the
simulated actual direction, `-fused['fused_magnitude'] * 60 - 0.25`
otherwise.  The simulated `actual_magnitude` (line 367) is drawn but never
used by the profit formula; it is kept as a parameter to record that. -/
def advanced_trade_profit (fused_direction : ℤ) (fused_magnitude : ℚ)
    (actual_direction : ℤ) (actual_magnitude : ℚ) : ℚ :=
  if fused_direction = actual_direction then fused_magnitude * 60 - 1/4
  else -fused_magnitude * 60 - 1/4

/-- Standard deviation of a P&L series as computed by `np.std` (line 120 of
`mathematical_proof_validation.py`): square root of the population
variance. -/
noncomputable def std_pnl (pnl : List ℚ) : ℝ := Real.sqrt ((popVariance pnl : ℚ) : ℝ)

/-- The Sharpe-like objective of `compute_performance_metrics` (line 121):
`mean_pnl / std_pnl if std_pnl > 0 else 0`. -/
noncomputable def sharpe_like (pnl : List ℚ) : ℝ :=
  if 0 < std_pnl pnl then ((popMean pnl : ℚ) : ℝ) / std_pnl pnl else 0

/-- An AI-system record of `mathematical_proof_simple.py` (lines 43-49): the
three numeric fields read by `calculate_portfolio_performance`. -/
structure AISystem where
  accuracy : ℚ
  avg_magnitude : ℚ
  reliability : ℚ
  deriving DecidableEq

/-- The exception `calculate_portfolio_performance` can raise: the
`ZeroDivisionError` of `w / total_weight` when the weight list is non-empty
and its sum is zero (the comprehension of line 182 executes no division on
an empty list, so the empty list does not raise). -/
inductive SimError where
  | ZeroDivisionError : SimError
  deriving DecidableEq

/-- The returned dictionary of `calculate_portfolio_performance`
(`mathematical_proof_simple.py`, lines 199-205). -/
structure PortfolioPerf where
  expected_pnl : ℚ
  risk_adjusted : ℚ
  accuracy : ℚ
  magnitude : ℚ
  reliability : ℚ
  deriving DecidableEq

/-- Commission constant `REAL_DATA['commission_per_trade'] = 0.25`
(`mathematical_proof_simple.py`, line 13). -/
def commission_per_trade : ℚ := 1/4

/-- `calculate_portfolio_performance` (`mathematical_proof_simple.py`, lines
176-205).  Line 182 divides each weight by the weight sum with no guard, so
a non-empty weight list with zero sum raises `ZeroDivisionError` at the
first element of the comprehension; the empty weight list executes no
division (the comprehension is empty) and the function returns the record
built from empty zips.  Otherwise the record is returned with the
zero-volatility guard of line 197
(`expected_pnl / volatility if volatility > 0 else 0`). -/
def calculate_portfolio_performance (ai_systems : List AISystem)
    (weights : List ℚ) : Except SimError PortfolioPerf :=
  let total_weight := weights.sum
  if weights ≠ [] ∧ total_weight = 0 then Except.error SimError.ZeroDivisionError
  else
    let w := weights.map (fun x => x / total_weight)
    let portfolio_accuracy := ((w.zip ai_systems).map (fun p => p.1 * p.2.accuracy)).sum
    let portfolio_magnitude := ((w.zip ai_systems).map (fun p => p.1 * p.2.avg_magnitude)).sum
    let portfolio_reliability := ((w.zip ai_systems).map (fun p => p.1 * p.2.reliability)).sum
    let avg_win := portfolio_magnitude * 60
    let avg_loss := portfolio_magnitude * 60
    let expected_pnl := portfolio_accuracy * avg_win
      - (1 - portfolio_accuracy) * avg_loss - commission_per_trade
    let volatility := portfolio_magnitude * 60 * (1/2)
    let risk_adjusted := if 0 < volatility then expected_pnl / volatility else 0
    Except.ok
      { expected_pnl := expected_pnl
        risk_adjusted := risk_adjusted
        accuracy := portfolio_accuracy
        magnitude := portfolio_magnitude
        reliability := portfolio_reliability }


/-- C9: whenever `mathematical_tensor_fusion` returns a fused record, the
fused direction is `1` or `-1`; it is never `0` and never any other value,
also when the weight sum is zero (the uniform fallback is then used). -/
theorem fused_direction_pm_one (signals : List Signal) (weights : List ℚ)
    (r : FusionResult)
    (h : (mathematical_tensor_fusion signals weights).toOption = some r) :
    r.fused_direction = 1 ∨ r.fused_direction = -1 := by
  unfold mathematical_tensor_fusion at h
  split_ifs at h with h1 h2
  · simp [Except.toOption] at h
  · simp [Except.toOption] at h
  · simp only [Except.toOption, Option.some.injEq] at h
    subst h
    by_cases hpos : 0 < dotDir signals (normalizeWeights weights)
    · left; simp [hpos]
    · right; simp [hpos]

theorem fused_direction_pm_one_witness :
    FusionResult.fused_direction
        { fused_confidence := 1, fused_direction := 1, fused_magnitude := 1,
          direction_variance := 0, contributing_signals := 1 } = 1 ∨
    FusionResult.fused_direction
        { fused_confidence := 1, fused_direction := 1, fused_magnitude := 1,
          direction_variance := 0, contributing_signals := 1 } = -1 :=
  fused_direction_pm_one [{ confidence := 1, direction := 1, magnitude := 1 }] [1] _
    (by norm_num [mathematical_tensor_fusion, normalizeWeights, dotConf, dotDir,
      dotMag, popMean, popVariance, Except.toOption])

/-- C1 (amended): the fused direction of `mathematical_tensor_fusion` is
`+1` when the weighted sum of `direction × confidence` (over the normalized
weights) is strictly positive and `-1` otherwise; in particular a weighted
sum of exactly zero yields `-1`, not `+1` (line 192 reads
`1 if fused_direction > 0 else -1`). -/
theorem fused_direction_eq_sign_with_neg_tie (signals : List Signal)
    (weights : List ℚ) (r : FusionResult)
    (h : (mathematical_tensor_fusion signals weights).toOption = some r) :
    r.fused_direction =
      if 0 < dotDir signals (normalizeWeights weights) then 1 else -1 := by
  unfold mathematical_tensor_fusion at h
  split_ifs at h with h1 h2
  · simp [Except.toOption] at h
  · simp [Except.toOption] at h
  · simp only [Except.toOption, Option.some.injEq] at h
    subst h
    rfl

theorem fused_direction_eq_sign_with_neg_tie_witness :
    FusionResult.fused_direction
        { fused_confidence := 1/2, fused_direction := -1, fused_magnitude := 1/200,
          direction_variance := 1, contributing_signals := 2 } =
      if 0 < dotDir
          [{ confidence := 1/2, direction := 1, magnitude := 1/100 },
           { confidence := 1/2, direction := -1, magnitude := 1/100 }]
          (normalizeWeights [1, 1]) then 1 else -1 :=
  fused_direction_eq_sign_with_neg_tie _ _ _
    (by norm_num [mathematical_tensor_fusion, normalizeWeights, dotConf, dotDir,
      dotMag, popMean, popVariance, Except.toOption])

/-- C1 counterexample: equal-weighted fusion of two signals with opposite
directions and equal confidence has a weighted direction sum of exactly
zero, and the fused direction is `-1`, not the `+1` the claim states. -/
theorem fused_direction_zero_sum_counterexample :
    dotDir
        [{ confidence := 1/2, direction := 1, magnitude := 1/100 },
         { confidence := 1/2, direction := -1, magnitude := 1/100 }]
        (normalizeWeights [1, 1]) = 0 ∧
    (mathematical_tensor_fusion
        [{ confidence := 1/2, direction := 1, magnitude := 1/100 },
         { confidence := 1/2, direction := -1, magnitude := 1/100 }]
        [1, 1]).toOption.map FusionResult.fused_direction = some (-1) := by
  constructor
  · norm_num [normalizeWeights, dotDir]
  · norm_num [mathematical_tensor_fusion, normalizeWeights, dotConf, dotDir,
      dotMag, popMean, popVariance, Except.toOption]

/-- C2 (amended): fusing a single signal alone with weight `1.0` returns the
signal's confidence unchanged and its direction unchanged whenever the
confidence-weighted direction sum is non-zero, but the fused magnitude is
`magnitude × confidence` (line 189), not the magnitude unchanged. -/
theorem single_signal_fusion (s : Signal) (hc : 0 ≤ s.confidence)
    (hd : s.direction = 1 ∨ s.direction = -1) :
    (mathematical_tensor_fusion [s] [1]).toOption.map FusionResult.fused_confidence
        = some s.confidence ∧
    (mathematical_tensor_fusion [s] [1]).toOption.map FusionResult.fused_magnitude
        = some (s.magnitude * s.confidence) ∧
    ((s.direction : ℚ) * s.confidence ≠ 0 →
      (mathematical_tensor_fusion [s] [1]).toOption.map FusionResult.fused_direction
        = some s.direction) := by
  have hnw : normalizeWeights [1] = [1] := by norm_num [normalizeWeights]
  refine ⟨?_, ?_, ?_⟩
  · simp [mathematical_tensor_fusion, hnw, dotConf, dotDir, Except.toOption]
  · simp [mathematical_tensor_fusion, hnw, dotMag, dotDir, Except.toOption]
  · intro hne
    rcases hd with hd | hd
    · have hcpos : 0 < s.confidence := by
        rcases lt_or_eq_of_le hc with h | h
        · exact h
        · exfalso; exact hne (by rw [← h, mul_zero])
      have : 0 < (s.direction : ℚ) * s.confidence * 1 := by
        rw [hd]; push_cast; linarith
      simp [mathematical_tensor_fusion, hnw, dotDir, Except.toOption, this, hd, hcpos]
    · have : ¬ 0 < (s.direction : ℚ) * s.confidence * 1 := by
        rw [hd]; push_cast; nlinarith
      simp [mathematical_tensor_fusion, hnw, dotDir, Except.toOption, this, hd, hc]

theorem single_signal_fusion_witness :
    (mathematical_tensor_fusion [{ confidence := 1/2, direction := 1, magnitude := 1 }]
        [1]).toOption.map FusionResult.fused_confidence = some (1/2) ∧
    (mathematical_tensor_fusion [{ confidence := 1/2, direction := 1, magnitude := 1 }]
        [1]).toOption.map FusionResult.fused_magnitude = some (1/2) ∧
    (mathematical_tensor_fusion [{ confidence := 1/2, direction := 1, magnitude := 1 }]
        [1]).toOption.map FusionResult.fused_direction = some 1 := by
  have h := single_signal_fusion { confidence := 1/2, direction := 1, magnitude := 1 }
    (by norm_num) (Or.inl rfl)
  refine ⟨h.1, ?_, h.2.2 (by norm_num)⟩
  simpa using h.2.1

/-- C2 counterexample: fusing the single signal with confidence `1/2` and
magnitude `1` alone with weight `1.0` returns fused magnitude `1/2`
(= magnitude × confidence), not the magnitude `1` unchanged. -/
theorem single_signal_magnitude_counterexample :
    (mathematical_tensor_fusion [{ confidence := 1/2, direction := 1, magnitude := 1 }]
        [1]).toOption.map FusionResult.fused_magnitude = some (1/2) ∧
    (mathematical_tensor_fusion [{ confidence := 1/2, direction := 1, magnitude := 1 }]
        [1]).toOption.map FusionResult.fused_magnitude ≠ some 1 := by
  constructor <;>
    norm_num [mathematical_tensor_fusion, normalizeWeights, dotConf, dotDir,
      dotMag, popMean, popVariance, Except.toOption]

/-- C3 (amended): `mathematical_tensor_fusion` fails with the length error
(the spec's `InputShapeError`) exactly when the signal and weight counts
differ, and succeeds whenever the lengths are equal and the input is
non-empty; on equal-length empty input it does not succeed (it raises
`ZeroDivisionError` from `1/len(weights)`, line 184). -/
theorem fusion_length_check (signals : List Signal) (weights : List ℚ) :
    (signals.length ≠ weights.length →
      mathematical_tensor_fusion signals weights
        = Except.error FusionError.InputShapeError) ∧
    (mathematical_tensor_fusion signals weights
        = Except.error FusionError.InputShapeError →
      signals.length ≠ weights.length) ∧
    (signals.length = weights.length → signals ≠ [] →
      (mathematical_tensor_fusion signals weights).toOption.isSome = true) := by
  refine ⟨?_, ?_, ?_⟩
  · intro hne
    unfold mathematical_tensor_fusion
    rw [if_pos hne]
  · intro herr
    unfold mathematical_tensor_fusion at herr
    split_ifs at herr with h1 h2
    · exact h1
    · exact absurd (Except.error.inj herr) (by simp)
  · intro heq hne
    unfold mathematical_tensor_fusion
    rw [if_neg (by simp [heq]), if_neg (by simp [hne])]
    simp [Except.toOption]

theorem fusion_length_check_witness :
    mathematical_tensor_fusion [{ confidence := 1, direction := 1, magnitude := 1 }] []
      = Except.error FusionError.InputShapeError ∧
    (mathematical_tensor_fusion [{ confidence := 1, direction := 1, magnitude := 1 }]
      [1]).toOption.isSome = true :=
  ⟨(fusion_length_check _ []).1 (by simp),
   (fusion_length_check _ [1]).2.2 (by simp) (by simp)⟩

/-- C3 counterexample: the empty signal list and the empty weight list have
equal lengths, yet fusion does not succeed there — Python raises
`ZeroDivisionError` evaluating `1/len(weights)` on line 184. -/
theorem fusion_empty_input_counterexample :
    ([] : List Signal).length = ([] : List ℚ).length ∧
    (mathematical_tensor_fusion [] []).toOption = none :=
  ⟨rfl, rfl⟩

theorem sum_map_div (l : List ℚ) (s : ℚ) :
    (l.map (fun x => x / s)).sum = l.sum / s := by
  induction l with
  | nil => simp
  | cons a t ih => simp [ih, add_div]

theorem sum_map_mul (l : List ℚ) (c : ℚ) :
    (l.map (fun x => c * x)).sum = c * l.sum := by
  induction l with
  | nil => simp
  | cons a t ih => simp [ih, mul_add]

theorem map_scale_div (l : List ℚ) (c s : ℚ) (hc : c ≠ 0) :
    (l.map (fun x => c * x)).map (fun x => x / (c * s)) = l.map (fun x => x / s) := by
  rw [List.map_map]
  refine List.map_congr_left (fun x _ => ?_)
  simp only [Function.comp_apply]
  exact mul_div_mul_left x s hc

/-- C4 (amended): only `mathematical_tensor_fusion` normalizes weights with
a fallback, and its guard is `total_weight > 0`: it divides each weight by
the sum when the sum is positive and returns uniform weights `1/n` whenever
the list is non-empty and the sum is `≤ 0` — not only when it is exactly
zero.  The portfolio routine of `mathematical_proof_simple.py` has no
fallback at all: a non-empty weight list with zero sum raises
`ZeroDivisionError`, while the empty list performs no division and returns
a record.  The validation script's `tensor_fusion` divides by the sum
unconditionally, producing no valid weights at a zero sum. -/
theorem weight_normalization_fallback (w : List ℚ) (systems : List AISystem)
    (weights : List ℚ) :
    (0 < w.sum → normalizeWeights w = w.map (fun x => x / w.sum)) ∧
    (w ≠ [] → w.sum ≤ 0 →
      normalizeWeights w = List.replicate w.length (1 / (w.length : ℚ))) ∧
    (weights ≠ [] → weights.sum = 0 →
      calculate_portfolio_performance systems weights
        = Except.error SimError.ZeroDivisionError) ∧
    (calculate_portfolio_performance systems []
        = Except.ok
          { expected_pnl := -(1/4), risk_adjusted := 0, accuracy := 0,
            magnitude := 0, reliability := 0 }) ∧
    (weights.sum = 0 → tensor_fusion_weights weights = none) := by
  refine ⟨?_, ?_, ?_, ?_, ?_⟩
  · intro hpos
    unfold normalizeWeights
    rw [if_pos hpos]
  · intro _ hle
    unfold normalizeWeights
    rw [if_neg (not_lt.mpr hle)]
  · intro hne hz
    unfold calculate_portfolio_performance
    rw [if_pos ⟨hne, hz⟩]
  · norm_num [calculate_portfolio_performance, commission_per_trade]
  · intro hz
    unfold tensor_fusion_weights
    rw [if_pos hz]

theorem weight_normalization_fallback_witness :
    normalizeWeights [-1, -3]
      = List.replicate ([-1, -3] : List ℚ).length ((1 : ℚ) / (([-1, -3] : List ℚ).length : ℚ)) ∧
    calculate_portfolio_performance
        [{ accuracy := 1/2, avg_magnitude := 1/100, reliability := 1/2 }] [1, -1]
      = Except.error SimError.ZeroDivisionError ∧
    calculate_portfolio_performance
        [{ accuracy := 1/2, avg_magnitude := 1/100, reliability := 1/2 }] []
      = Except.ok
        { expected_pnl := -(1/4), risk_adjusted := 0, accuracy := 0,
          magnitude := 0, reliability := 0 } ∧
    tensor_fusion_weights [1, -1] = none :=
  ⟨(weight_normalization_fallback [-1, -3] [] []).2.1 (by simp)
      (by norm_num [List.sum_cons, List.sum_nil]),
   (weight_normalization_fallback []
      [{ accuracy := 1/2, avg_magnitude := 1/100, reliability := 1/2 }] [1, -1]).2.2.1
      (by simp) (by norm_num [List.sum_cons, List.sum_nil]),
   (weight_normalization_fallback []
      [{ accuracy := 1/2, avg_magnitude := 1/100, reliability := 1/2 }] []).2.2.2.1,
   (weight_normalization_fallback [] [] [1, -1]).2.2.2.2
      (by norm_num [List.sum_cons, List.sum_nil])⟩

/-- C4 counterexample: the claim's "otherwise divide each weight by the sum"
fails for a negative sum — `normalizeWeights [-1, -3]` returns the uniform
`[1/2, 1/2]`, not `[-1/(-4), -3/(-4)] = [1/4, 3/4]` — and the claim's
"this fallback holds in every fusion routine" fails for
`calculate_portfolio_performance`, which raises on a non-empty zero-sum
weight list instead of falling back to uniform weights. -/
theorem weight_normalization_counterexample :
    normalizeWeights [-1, -3] = [1/2, 1/2] ∧
    ([(-1 : ℚ) / (-1 + -3), (-3 : ℚ) / (-1 + -3)] : List ℚ) = [1/4, 3/4] ∧
    (calculate_portfolio_performance
        [{ accuracy := 1/2, avg_magnitude := 1/100, reliability := 1/2 }]
        [1, -1]).toOption = none := by
  refine ⟨?_, by norm_num, ?_⟩
  · norm_num [normalizeWeights, List.sum_cons, List.sum_nil]
    rfl
  · have herr : calculate_portfolio_performance
        [{ accuracy := 1/2, avg_magnitude := 1/100, reliability := 1/2 }] [1, -1]
        = Except.error SimError.ZeroDivisionError := by
      unfold calculate_portfolio_performance
      rw [if_pos ⟨by simp, by norm_num [List.sum_cons, List.sum_nil]⟩]
    rw [herr]
    rfl

/-- C5 (amended): in the validation script's P&L simulation
(`compute_performance_metrics`) a trade's profit is
`actual_magnitude × 60 − 0.25` when the predicted (fused) direction matches
the actual direction and `−actual_magnitude × 60 − 0.25` otherwise; in the
advanced script's simulation (`prove_additive_value`) the magnitude used is
the *fused* magnitude, not the actual one. -/
theorem trade_pnl_formula (pd ad am : ℚ) (fd actual_d : ℤ) (fm actual_m : ℚ) :
    (qsign pd = ad → trade_pnl pd ad am = am * 60 - 1/4) ∧
    (qsign pd ≠ ad → trade_pnl pd ad am = -am * 60 - 1/4) ∧
    (fd = actual_d →
      advanced_trade_profit fd fm actual_d actual_m = fm * 60 - 1/4) ∧
    (fd ≠ actual_d →
      advanced_trade_profit fd fm actual_d actual_m = -fm * 60 - 1/4) := by
  unfold trade_pnl advanced_trade_profit
  exact ⟨fun h => by rw [if_pos h], fun h => by rw [if_neg h],
         fun h => by rw [if_pos h], fun h => by rw [if_neg h]⟩

theorem trade_pnl_formula_witness :
    trade_pnl 2 1 (3/100) = (3/100) * 60 - 1/4 ∧
    advanced_trade_profit 1 (1/100) (-1) (2/100) = -(1/100) * 60 - 1/4 :=
  ⟨(trade_pnl_formula 2 1 (3/100) 1 (-1) (1/100) (2/100)).1 (by norm_num [qsign]),
   (trade_pnl_formula 2 1 (3/100) 1 (-1) (1/100) (2/100)).2.2.2 (by decide)⟩

/-- C5 counterexample: in the advanced script's simulation a correct trade
with fused magnitude `0.01` and actual magnitude `0.02` yields profit
`0.01 × 60 − 0.25 = 0.35`, not the claim's
`actual_magnitude × 60 − 0.25 = 0.95`. -/
theorem advanced_profit_counterexample :
    advanced_trade_profit 1 (1/100) 1 (2/100) = (1/100) * 60 - 1/4 ∧
    advanced_trade_profit 1 (1/100) 1 (2/100) ≠ (2/100) * 60 - 1/4 := by
  constructor <;> norm_num [advanced_trade_profit]

/-- C6 (amended): `mathematical_tensor_fusion`'s normalized weights always
sum to exactly 1 for non-empty input and are invariant under scaling the
input weights by any positive factor; the validation script's
`tensor_fusion` normalization sums to 1 and is scale-invariant only when the
weight sum is non-zero — at a zero sum (possible with non-zero entries) its
unguarded division produces no valid weights at all. -/
theorem normalized_weights_sum_and_scale (w : List ℚ) (c : ℚ)
    (hw : w ≠ []) (hc : 0 < c) :
    (normalizeWeights w).sum = 1 ∧
    normalizeWeights (w.map (fun x => c * x)) = normalizeWeights w ∧
    (w.sum ≠ 0 → (tensor_fusion_weights w).map List.sum = some 1) ∧
    tensor_fusion_weights (w.map (fun x => c * x)) = tensor_fusion_weights w := by
  have hn : (w.length : ℚ) ≠ 0 := by
    exact_mod_cast Nat.cast_ne_zero.mpr ((List.length_pos.mpr hw).ne')
  have hsum : (w.map (fun x => c * x)).sum = c * w.sum := sum_map_mul w c
  refine ⟨?_, ?_, ?_, ?_⟩
  · unfold normalizeWeights
    by_cases hpos : 0 < w.sum
    · rw [if_pos hpos, sum_map_div, div_self hpos.ne']
    · rw [if_neg hpos, List.sum_replicate, nsmul_eq_mul, mul_one_div, div_self hn]
  · unfold normalizeWeights
    by_cases hpos : 0 < w.sum
    · rw [hsum, if_pos (mul_pos hc hpos), if_pos hpos]
      exact map_scale_div w c w.sum hc.ne'
    · have hnn : c * w.sum ≤ 0 := by nlinarith [not_lt.mp hpos]
      rw [hsum, if_neg (not_lt.mpr hnn), if_neg hpos]
      simp
  · intro hs
    unfold tensor_fusion_weights
    rw [if_neg hs]
    simp [sum_map_div, div_self hs]
  · unfold tensor_fusion_weights
    by_cases hs : w.sum = 0
    · simp [hsum, hs]
    · rw [hsum, if_neg (mul_ne_zero hc.ne' hs), if_neg hs]
      rw [map_scale_div w c w.sum hc.ne']

theorem normalized_weights_sum_and_scale_witness :
    (normalizeWeights [1, 2]).sum = 1 ∧
    normalizeWeights (([1, 2] : List ℚ).map (fun x => 3 * x)) = normalizeWeights [1, 2] ∧
    (tensor_fusion_weights [1, 2]).map List.sum = some 1 ∧
    tensor_fusion_weights (([1, 2] : List ℚ).map (fun x => 3 * x))
      = tensor_fusion_weights [1, 2] := by
  have h := normalized_weights_sum_and_scale [1, 2] 3 (by simp) (by norm_num)
  exact ⟨h.1, h.2.1, h.2.2.1 (by norm_num [List.sum_cons, List.sum_nil]), h.2.2.2⟩

/-- C6 counterexample: `[1, -1]` is non-empty, has non-zero entries, and is
scaled by the positive factor `1`, yet the validation script's
`tensor_fusion` normalization produces no weights summing to 1 there — its
unguarded `weights / np.sum(weights)` divides by zero (numpy yields
non-finite values, modelled as `none`). -/
theorem tensor_fusion_weights_zero_sum_counterexample :
    ([1, -1] : List ℚ) ≠ [] ∧
    tensor_fusion_weights [1, -1] = none := by
  constructor
  · simp
  · norm_num [tensor_fusion_weights, List.sum_cons, List.sum_nil]

/-- C10: `calculate_portfolio_performance` returns exactly the same record
(expected P&L, risk-adjusted value, accuracy, magnitude, reliability) when
every weight is scaled by the same positive factor, because the weights are
first divided by their sum (line 182). -/
theorem portfolio_performance_scale_invariant (ai_systems : List AISystem)
    (weights : List ℚ) (c : ℚ) (hw : 0 < weights.sum) (hc : 0 < c) :
    calculate_portfolio_performance ai_systems (weights.map (fun x => c * x))
      = calculate_portfolio_performance ai_systems weights := by
  have hsum : (weights.map (fun x => c * x)).sum = c * weights.sum := sum_map_mul _ _
  have hkey : (weights.map (fun x => c * x)).map (fun x => x / (c * weights.sum))
      = weights.map (fun x => x / weights.sum) := map_scale_div _ _ _ hc.ne'
  have hmapsum : (weights.map (fun x => c * x)).sum ≠ 0 := by
    rw [hsum]; exact mul_ne_zero hc.ne' hw.ne'
  have h1 : ¬(weights.map (fun x => c * x) ≠ [] ∧
      (weights.map (fun x => c * x)).sum = 0) := fun hand => hmapsum hand.2
  have h2 : ¬(weights ≠ [] ∧ weights.sum = 0) := fun hand => hw.ne' hand.2
  simp only [calculate_portfolio_performance]
  rw [if_neg h1, if_neg h2, hsum, hkey]

theorem portfolio_performance_scale_invariant_witness :
    calculate_portfolio_performance
        [{ accuracy := 1/2, avg_magnitude := 1/100, reliability := 1/2 }]
        (([1] : List ℚ).map (fun x => 2 * x))
      = calculate_portfolio_performance
        [{ accuracy := 1/2, avg_magnitude := 1/100, reliability := 1/2 }] [1] :=
  portfolio_performance_scale_invariant _ [1] 2
    (by norm_num [List.sum_cons, List.sum_nil]) (by norm_num)

/-- C7: the Sharpe-like objective of `compute_performance_metrics` equals
`mean(P&L) / std(P&L)` when the standard deviation is positive and is
exactly `0` when the standard deviation is zero (the guard on line 121
avoids the division error), and the zero-volatility guard of
`calculate_portfolio_performance` (line 197) likewise yields a zero
risk-adjusted value instead of failing. -/
theorem sharpe_zero_std_fallback (pnl : List ℚ) (systems : List AISystem)
    (weights : List ℚ) (r : PortfolioPerf) :
    (0 < std_pnl pnl → sharpe_like pnl = ((popMean pnl : ℚ) : ℝ) / std_pnl pnl) ∧
    (std_pnl pnl = 0 → sharpe_like pnl = 0) ∧
    ((calculate_portfolio_performance systems weights).toOption = some r →
      r.magnitude * 60 * (1/2) = 0 → r.risk_adjusted = 0) := by
  refine ⟨?_, ?_, ?_⟩
  · intro h
    unfold sharpe_like
    rw [if_pos h]
  · intro h
    unfold sharpe_like
    rw [if_neg (by rw [h]; exact lt_irrefl 0)]
  · intro h hv
    unfold calculate_portfolio_performance at h
    dsimp only at h
    split_ifs at h with h0 hvol
    · simp [Except.toOption] at h
    · simp only [Except.toOption, Option.some.injEq] at h
      subst h
      dsimp only at hv hvol
      exact absurd hv hvol.ne'
    · simp only [Except.toOption, Option.some.injEq] at h
      subst h
      rfl

theorem sharpe_zero_std_fallback_witness :
    sharpe_like [1, 1] = 0 ∧
    PortfolioPerf.risk_adjusted
        { expected_pnl := -(1/4), risk_adjusted := 0, accuracy := 1/2,
          magnitude := 0, reliability := 1/2 } = 0 := by
  have hvar : popVariance [1, 1] = 0 := by
    norm_num [popVariance, popMean, List.sum_cons, List.sum_nil]
  have hstd : std_pnl [1, 1] = 0 := by
    unfold std_pnl
    rw [hvar]
    push_cast
    exact Real.sqrt_zero
  refine ⟨(sharpe_zero_std_fallback [1, 1] [] []
      { expected_pnl := 0, risk_adjusted := 0, accuracy := 0, magnitude := 0,
        reliability := 0 }).2.1 hstd, ?_⟩
  exact (sharpe_zero_std_fallback []
      [{ accuracy := 1/2, avg_magnitude := 0, reliability := 1/2 }] [1]
      { expected_pnl := -(1/4), risk_adjusted := 0, accuracy := 1/2,
        magnitude := 0, reliability := 1/2 }).2.2
    (by norm_num [calculate_portfolio_performance, commission_per_trade,
      Except.toOption, List.sum_cons, List.sum_nil])
    (by norm_num)

theorem popVariance_const (xs : List ℚ) (a : ℚ) (hne : xs ≠ [])
    (h : ∀ x ∈ xs, x = a) : popVariance xs = 0 := by
  have hn : (xs.length : ℚ) ≠ 0 :=
    Nat.cast_ne_zero.mpr (List.length_pos.mpr hne).ne'
  have hsum : xs.sum = (xs.length : ℚ) * a := by
    rw [List.sum_eq_card_nsmul xs a h, nsmul_eq_mul]
  have hmean : popMean xs = a := by
    unfold popMean
    rw [hsum, mul_comm, mul_div_assoc, div_self hn, mul_one]
  unfold popVariance
  have hz : (xs.map (fun d => (d - popMean xs) ^ 2)).sum = 0 := by
    apply List.sum_eq_zero
    intro y hy
    obtain ⟨x, hx, rfl⟩ := List.mem_map.mp hy
    rw [h x hx, hmean, sub_self]
    ring
  rw [hz, zero_div]

/-- C8: the coherence diagnostic of `mathematical_tensor_fusion` equals
`1 − sqrt(population variance of the raw directions)` clamped to `[0, 1]`
(the upper clamp is vacuous since the square root is non-negative), always
lies in `[0, 1]`, and equals exactly `1` when all input directions are
identical. -/
theorem coherence_bounds (signals : List Signal) (weights : List ℚ)
    (r : FusionResult)
    (h : (mathematical_tensor_fusion signals weights).toOption = some r)
    (hdirs : ∀ s ∈ signals, s.direction = 1 ∨ s.direction = -1) :
    coherence_of r.direction_variance
      = max 0 (min 1 (1 - Real.sqrt ((r.direction_variance : ℚ) : ℝ))) ∧
    0 ≤ coherence_of r.direction_variance ∧
    coherence_of r.direction_variance ≤ 1 ∧
    ((∀ s ∈ signals, ∀ t ∈ signals, s.direction = t.direction) →
      coherence_of r.direction_variance = 1) := by
  have hsqrt : (0 : ℝ) ≤ Real.sqrt ((r.direction_variance : ℚ) : ℝ) :=
    Real.sqrt_nonneg _
  refine ⟨?_, le_max_left _ _, ?_, ?_⟩
  · unfold coherence_of
    rw [min_eq_right (by linarith)]
  · unfold coherence_of
    exact max_le (by norm_num) (by linarith)
  · intro hall
    unfold mathematical_tensor_fusion at h
    split_ifs at h with h1 h2
    · simp [Except.toOption] at h
    · simp [Except.toOption] at h
    · simp only [Except.toOption, Option.some.injEq] at h
      subst h
      dsimp only
      cases signals with
      | nil => exact absurd rfl h2
      | cons s0 rest =>
        have hvar :
            popVariance ((s0 :: rest).map (fun s => (s.direction : ℚ))) = 0 := by
          apply popVariance_const _ ((s0.direction : ℚ))
          · simp
          · intro x hx
            obtain ⟨t, ht, rfl⟩ := List.mem_map.mp hx
            exact_mod_cast hall t ht s0 (List.mem_cons_self _ _)
        rw [hvar]
        unfold coherence_of
        push_cast
        rw [Real.sqrt_zero]
        norm_num

theorem coherence_bounds_witness :
    coherence_of
        (FusionResult.direction_variance
          { fused_confidence := 1, fused_direction := 1, fused_magnitude := 1,
            direction_variance := 0, contributing_signals := 2 })
      = max 0 (min 1 (1 - Real.sqrt
          (((FusionResult.direction_variance
              { fused_confidence := 1, fused_direction := 1, fused_magnitude := 1,
                direction_variance := 0, contributing_signals := 2 } : ℚ)) : ℝ))) ∧
    0 ≤ coherence_of
        (FusionResult.direction_variance
          { fused_confidence := 1, fused_direction := 1, fused_magnitude := 1,
            direction_variance := 0, contributing_signals := 2 }) ∧
    coherence_of
        (FusionResult.direction_variance
          { fused_confidence := 1, fused_direction := 1, fused_magnitude := 1,
            direction_variance := 0, contributing_signals := 2 }) ≤ 1 ∧
    coherence_of
        (FusionResult.direction_variance
          { fused_confidence := 1, fused_direction := 1, fused_magnitude := 1,
            direction_variance := 0, contributing_signals := 2 }) = 1 := by
  have h := coherence_bounds
      [{ confidence := 1, direction := 1, magnitude := 1 },
       { confidence := 1, direction := 1, magnitude := 1 }] [1, 1]
      { fused_confidence := 1, fused_direction := 1, fused_magnitude := 1,
        direction_variance := 0, contributing_signals := 2 }
      (by norm_num [mathematical_tensor_fusion, normalizeWeights, dotConf, dotDir,
        dotMag, popMean, popVariance, Except.toOption])
      (by intro s hs; fin_cases hs <;> exact Or.inl rfl)
  exact ⟨h.1, h.2.1, h.2.2.1,
    h.2.2.2 (by intro s hs t ht; fin_cases hs <;> fin_cases ht <;> rfl)⟩
